import Mathlib

/-!
Shallow embedding of the key-binding action handlers of `src/main.c`, the
command-dispatch core of the vis editor.  Input keys are modelled as a list
of key tokens (`Char`); a handler that in C returns `NULL` ("need more
input, keep the keys buffered") returns `none` here, and otherwise returns
the unconsumed tail.  Functions living outside `src/` (vis.c, view.c,
text.c, libutf) are modelled from the specification and say so in their
doc comment.
-/

namespace Vis

/-- A buffered key sequence; `keys[0] == '\0'` in C corresponds to `[]`. -/
abbrev Keys := List Char

/-- A register id as produced by `key2register`: `some i` for register `i`
(0 = register `a`), `none` for `VIS_REGISTER_INVALID`. -/
abbrev RegId := Option Nat

/-- `key2register` (src/main.c:1253): reads the first buffered key.  Only
`a`..`z` name a register; any other key yields `VIS_REGISTER_INVALID`
(`none`) with the key still consumed; an empty tail returns `NULL` in the
key-stream component. -/
def key2register (keys : Keys) : RegId × Option Keys :=
  match keys with
  | [] => (none, none)
  | k :: rest =>
    (if 'a' ≤ k ∧ k ≤ 'z' then some (k.toNat - 'a'.toNat) else none, some rest)

/-- The pending-command state the register selection lives in (spec §3,
"Pending command"). -/
structure PendingCmd where
  count : Nat := 0
  register : RegId := none
  deriving DecidableEq, Repr

/-- Modelled from the spec: `vis_register_set` (vis.c, not under src/)
stores the selected register id in the pending command for the current
operator. -/
def vis_register_set (p : PendingCmd) (r : RegId) : PendingCmd :=
  { p with register := r }

/-- `reg` (src/main.c:1262): consume one key naming a register and select
that register for the current operator. -/
def reg (p : PendingCmd) (keys : Keys) : PendingCmd × Option Keys :=
  let (r, keys') := key2register keys
  (vis_register_set p r, keys')

/-- `count` (src/main.c:1188): the digit is taken from the key that
triggered the action (`keys[-1]`, the key just consumed by the binding).
Returns the new pending count (`vis_count_set`) and whether the
`MOVE_LINE_BEGIN` motion was issued. -/
def count (lastKey : Char) (c : Nat) : Nat × Bool :=
  let digit : Int := (lastKey.toNat : Int) - ('0'.toNat : Int)
  if 0 ≤ digit ∧ digit ≤ 9 then
    (c * 10 + digit.toNat, decide (digit = 0 ∧ c = 0))
  else
    (c, false)

/-- A mark id as produced by `key2mark`: `some i` for a valid mark,
`none` for `VIS_MARK_INVALID`. -/
abbrev MarkId := Option Nat

/-- `MARK_SELECTION_START` (`<`), numbered after the 26 user marks. -/
def MARK_SELECTION_START : Nat := 26

/-- `MARK_SELECTION_END` (`>`). -/
def MARK_SELECTION_END : Nat := 27

/-- `key2mark` (src/main.c:1269): `a`..`z` name user marks, `<` and `>` the
last selection start/end; anything else is `VIS_MARK_INVALID`; an empty
tail returns `NULL`. -/
def key2mark (keys : Keys) : MarkId × Option Keys :=
  match keys with
  | [] => (none, none)
  | k :: rest =>
    (if 'a' ≤ k ∧ k ≤ 'z' then some (k.toNat - 'a'.toNat)
     else if k = '<' then some MARK_SELECTION_START
     else if k = '>' then some MARK_SELECTION_END
     else none, some rest)

/-- `mark_set` (src/main.c:1282): consume one mark key and set that mark at
the primary cursor position `pos`.  Returns the `(mark, position)` pair
passed to `vis_mark_set` and the unconsumed tail. -/
def mark_set (pos : Nat) (keys : Keys) : (MarkId × Nat) × Option Keys :=
  let (m, keys') := key2mark keys
  ((m, pos), keys')

/-- `VIS_MACRO_LAST_RECORDED` (`@`), numbered after the 26 named macros. -/
def VIS_MACRO_LAST_RECORDED : Nat := 26

/-- `key2macro` (src/main.c:1037): `a`..`z` name macros, `@` the last
recorded one; anything else is `VIS_MACRO_INVALID`; an empty tail returns
`NULL`. -/
def key2macro (keys : Keys) : Option Nat × Option Keys :=
  match keys with
  | [] => (none, none)
  | k :: rest =>
    (if 'a' ≤ k ∧ k ≤ 'z' then some (k.toNat - 'a'.toNat)
     else if k = '@' then some VIS_MACRO_LAST_RECORDED
     else none, some rest)

/-- What `macro_record` did: either stopped a running recording
(`vis_macro_record_stop` returned true) or asked to start one. -/
inductive MacroEffect
  | stop
  | record (m : Option Nat)
  deriving DecidableEq, Repr

/-- `macro_record` (src/main.c:1048): if a recording is in progress it is
stopped and the tail returned unchanged, consuming nothing
(`vis_macro_record_stop` is modelled from the spec: "recording is toggled
by repeated call", so it reports whether a recording was running);
otherwise one register key is consumed and recording starts. -/
def macro_record (recording : Bool) (keys : Keys) : MacroEffect × Option Keys :=
  if recording then (.stop, some keys)
  else
    let (m, keys') := key2macro keys
    (.record m, keys')

/-- `macro_replay` (src/main.c:1058): consume one register key and replay
that macro.  Returns the id passed to `vis_macro_replay` and the tail. -/
def macro_replay (keys : Keys) : Option Nat × Option Keys :=
  key2macro keys

/-- `movement_key` (src/main.c:1219): consume one key and issue the motion
`motionKind` with that key as argument (`vis_motion`).  Returns the issued
(motion, key) pair and the unconsumed tail, or `NULL` when no key is
buffered. -/
def movement_key (motionKind : Nat) (keys : Keys) : Option ((Nat × Char) × Keys) :=
  match keys with
  | [] => none
  | k :: rest => some ((motionKind, k), rest)

/-- `replace` (src/main.c:1173): consume one key, replace the character
under each cursor with it (`vis_replace_key`) and take a snapshot.
Returns the key passed to `vis_replace_key` and the unconsumed tail, or
`NULL` when no key is buffered. -/
def replace (keys : Keys) : Option (Char × Keys) :=
  match keys with
  | [] => none
  | k :: rest => some (k, rest)

/-- Editor view state used by the insertion and history handlers: the text
as a byte list, the cursor positions and the index of the primary cursor
(spec §3, "View"). -/
structure EdState where
  text : List Char
  cursors : List Nat
  primary : Nat
  deriving DecidableEq, Repr

/-- Modelled from the spec: `view_cursor_get` (view.c, not under src/)
returns the primary cursor's position. -/
def view_cursor_get (st : EdState) : Nat :=
  (st.cursors.get? st.primary).getD 0

/-- Modelled from the spec: `vis_insert(pos, bytes)` (vis.c, not under
src/) inserts the bytes at the given position of the text. -/
def vis_insert (st : EdState) (pos : Nat) (data : List Char) : EdState :=
  { st with text := st.text.take pos ++ data ++ st.text.drop pos }

/-- Modelled from the spec: `view_cursor_to` (view.c, not under src/) moves
the primary cursor to the given position; the other cursors stay. -/
def view_cursor_to (st : EdState) (pos : Nat) : EdState :=
  { st with cursors := st.cursors.set st.primary pos }

/-- The common tail of `insert_register` and `insert_verbatim`: read the
primary cursor position, insert `buf` there, move the primary cursor just
past the inserted bytes. -/
def insertAtCursor (st : EdState) (buf : List Char) : EdState :=
  view_cursor_to (vis_insert st (view_cursor_get st) buf) (view_cursor_get st + buf.length)

/-- Modelled from the spec: `vis_register_get` (vis.c, not under src/)
yields the bytes of a set register and `NULL` (`none`) for the invalid id
or an unset register ("missing-register": referenced id unset). -/
def vis_register_get (regs : Nat → Option (List Char)) (r : RegId) : Option (List Char) :=
  r.bind regs

/-- `insert_register` (src/main.c:1346): consume one register key; when
that register is set, insert its bytes at the primary cursor position and
move the primary cursor past them; otherwise change nothing. -/
def insert_register (regs : Nat → Option (List Char)) (st : EdState) (keys : Keys) :
    EdState × Option Keys :=
  let (r, keys') := key2register keys
  match vis_register_get regs r with
  | some data => (insertAtCursor st data, keys')
  | none => (st, keys')

/-- Digit value of `c` in the given base, exactly as the digit loop of
`insert_verbatim` (src/main.c:1413) accepts digits. -/
def digitVal (base : Nat) (c : Char) : Option Nat :=
  if base = 8 ∧ '0' ≤ c ∧ c ≤ '7' then some (c.toNat - '0'.toNat)
  else if (base = 10 ∨ base = 16) ∧ '0' ≤ c ∧ c ≤ '9' then some (c.toNat - '0'.toNat)
  else if base = 16 ∧ 'a' ≤ c ∧ c ≤ 'f' then some (10 + c.toNat - 'a'.toNat)
  else if base = 16 ∧ 'A' ≤ c ∧ c ≤ 'F' then some (10 + c.toNat - 'A'.toNat)
  else none

/-- The digit loop of `insert_verbatim`: returns the remaining required
digit count, the accumulated value, and the unconsumed keys.  On an
invalid digit the loop sets the count to 0 and stops without consuming
that key; on exhausted input it stops with the count still positive. -/
def verbatimLoop (base : Nat) : Nat → Nat → Keys → Nat × Nat × Keys
  | cnt, rune, [] => (cnt, rune, [])
  | cnt, rune, k :: rest =>
    if cnt = 0 then (0, rune, k :: rest)
    else
      match digitVal base k with
      | some v => verbatimLoop base (cnt - 1) (rune * base + v) rest
      | none => (0, rune, k :: rest)

/-- Modelled from the spec: `runetochar` (libutf, not under src/) encodes a
code point as UTF-8 ("convert to a single UTF-8 rune"). -/
def runetochar (r : Nat) : List Char :=
  if r < 0x80 then [Char.ofNat r]
  else if r < 0x800 then
    [Char.ofNat (0xC0 + r / 64), Char.ofNat (0x80 + r % 64)]
  else if r < 0x10000 then
    [Char.ofNat (0xE0 + r / 4096), Char.ofNat (0x80 + r / 64 % 64),
     Char.ofNat (0x80 + r % 64)]
  else
    [Char.ofNat (0xF0 + r / 262144 % 8), Char.ofNat (0x80 + r / 4096 % 64),
     Char.ofNat (0x80 + r / 64 % 64), Char.ofNat (0x80 + r % 64)]

/-- `insert_verbatim` (src/main.c:1380): a prefix key selects base and
required digit count (`o`/`O`: 3 octal, `x`/`X`: 2 hex, `u`: 4 hex, `U`:
8 hex, a decimal digit: that digit plus 2 more decimal digits); the
accumulated value is inserted as a UTF-8 rune for `u`/`U` and as one raw
byte (value mod 256, the C `char` truncation) otherwise.  Returns `NULL`
when the prefix or a required digit is not yet buffered.  The common part
after the prefix switch — running the digit loop and inserting the
result — is split into `verbatimTail`; `isRune` records whether the
prefix was `u` or `U`. -/
def verbatimTail (st : EdState) (isRune : Bool) (cnt0 base rune0 : Nat)
    (rest : Keys) : Option (EdState × Keys) :=
  let res := verbatimLoop base cnt0 rune0 rest
  if 0 < res.1 then none
  else
    let buf : List Char :=
      if isRune then runetochar res.2.1 else [Char.ofNat (res.2.1 % 256)]
    if 0 < buf.length then some (insertAtCursor st buf, res.2.2)
    else some (st, res.2.2)

/-- The prefix switch of `insert_verbatim` (src/main.c:1384): select the
digit count, the base, the initial value and whether a rune is encoded,
then run `verbatimTail`; a prefix that is neither a base selector nor a
decimal digit returns the keys unchanged. -/
def insert_verbatim (st : EdState) (keys : Keys) : Option (EdState × Keys) :=
  match keys with
  | [] => none
  | ty :: rest =>
    if ty = 'o' ∨ ty = 'O' then verbatimTail st false 3 8 0 rest
    else if ty = 'U' then verbatimTail st true 8 16 0 rest
    else if ty = 'u' then verbatimTail st true 4 16 0 rest
    else if ty = 'x' ∨ ty = 'X' then verbatimTail st false 2 16 0 rest
    else if '0' ≤ ty ∧ ty ≤ '9' then
      verbatimTail st false 2 10 (ty.toNat - '0'.toNat) rest
    else some (st, ty :: rest)

/-- The base-`base` value of a digit list, starting from `init` — the
accumulator `rune = rune * base + v` of the digit loop. -/
def accDigits (base : Nat) (init : Nat) (ds : List Char) : Nat :=
  ds.foldl (fun r c => r * base + (digitVal base c).getD 0) init

/-- Result of the `undo`/`redo` handlers: the view they leave behind,
whether `vis_draw` was called, and the UI messages issued.  The handlers
contain no message call at all, so the last field records that none is
surfaced. -/
structure HistResult where
  view : EdState
  drew : Bool
  messages : List (List Char)
  deriving DecidableEq, Repr

/-- `undo` (src/main.c:1296).  `undoPos` is what `text_undo` returned:
`none` stands for the sentinel `EPOS` (no more history).  On `EPOS`
nothing at all happens; on success the primary cursor moves to the
returned position only when exactly one cursor exists, and the windows
are redrawn. -/
def undo (undoPos : Option Nat) (st : EdState) : HistResult :=
  match undoPos with
  | none => { view := st, drew := false, messages := [] }
  | some pos =>
    { view := if st.cursors.length = 1 then view_cursor_to st pos else st,
      drew := true, messages := [] }

/-- `redo` (src/main.c:1308), same shape as `undo` over `text_redo`. -/
def redo (redoPos : Option Nat) (st : EdState) : HistResult :=
  match redoPos with
  | none => { view := st, drew := false, messages := [] }
  | some pos =>
    { view := if st.cursors.length = 1 then view_cursor_to st pos else st,
      drew := true, messages := [] }

/-- The operators named by the handlers embedded here. -/
inductive Op
  | opJoin
  | opDelete
  deriving DecidableEq, Repr

/-- The motions named by the handlers embedded here. -/
inductive Motion
  | lineNext
  | lineBegin
  | charPrev
  deriving DecidableEq, Repr

/-- `join` (src/main.c:1507): decrement a non-zero pending count, then set
the join operator and issue the motion given by the binding's argument
(`MOVE_LINE_NEXT` for "join-line-below", src/main.c:745).  Returns the new
pending count and the (operator, motion) calls issued. -/
def join (argMotion : Motion) (c : Nat) : Nat × Op × Motion :=
  (if c ≠ 0 then c - 1 else c, Op.opJoin, argMotion)

/-- Modelled from the spec: an unset count (0) applies a motion once, a set
count applies it that many times (§4.5 "Counts multiply", §8 property 4). -/
def motionReps (cnt : Nat) : Nat :=
  if cnt = 0 then 1 else cnt

/-- Modelled from the spec: the join operator over the range covered by `r`
applications of the line-next motion joins `r` following lines into the
current one, i.e. performs `r` join operations.  This composes the `join`
handler with that execution semantics, as a function of the pending count
it was invoked with. -/
def joinOpsPerformed (pendingCount : Nat) : Nat :=
  motionReps (join Motion.lineNext pendingCount).1

/-- The modes the prompt sub-system can move between (spec §4.4). -/
inductive Mode
  | normal
  | visual
  | visualLine
  | insertMode
  | replaceMode
  | prompt
  deriving DecidableEq, Repr

/-- State of the prompt sub-system: the prompt's line buffer, the mode that
was active when the prompt was entered ("Entering prompt mode saves the
previous mode"), and the current mode. -/
structure PromptState where
  buffer : List Char
  savedMode : Mode
  mode : Mode
  deriving DecidableEq, Repr

/-- Modelled from the spec: `vis_mode_switch` (vis.c, not under src/)
switches the editor to the given mode (§4.3 switchmode: "push target
mode"). -/
def vis_mode_switch (st : PromptState) (m : Mode) : PromptState :=
  { st with mode := m }

/-- Modelled from the spec: the `delete` helper (src/main.c:1340) issues
the delete operator with the char-prev motion; executed on the prompt
line (cursor at its end) this removes the character before the cursor,
i.e. the buffer's last character (operator execution lives in vis.c, not
under src/). -/
def prompt_delete_prev_char (st : PromptState) : PromptState :=
  { st with buffer := st.buffer.dropLast }

/-- `prompt_backspace` (src/main.c:1370): with an empty prompt line switch
to `VIS_MODE_NORMAL`, otherwise delete the previous character; the keys
are returned unconsumed in both cases. -/
def prompt_backspace (st : PromptState) (keys : Keys) : PromptState × Keys :=
  (if st.buffer = [] then vis_mode_switch st Mode.normal
   else prompt_delete_prev_char st, keys)

/-- A cursor of the multi-cursor view: its position and its selection, an
invalid range being `none` (spec §3, "Cursor"). -/
structure Cursor where
  pos : Nat
  sel : Option (Nat × Nat)
  deriving DecidableEq, Repr

/-- The cursor set of a view: the cursors in creation order and the index
of the primary one. -/
structure CView where
  cursors : List Cursor
  primary : Nat
  deriving DecidableEq, Repr

/-- Whether byte `q` of the text is a UTF-8 continuation byte. -/
def isContinuation (txt : List Char) (q : Nat) : Bool :=
  match txt.get? q with
  | some c => decide (0x80 ≤ c.toNat ∧ c.toNat < 0xC0)
  | none => false

/-- Modelled from the spec: `text_char_prev` (text-motions.c, not under
src/) returns the previous UTF-8 character boundary ("character
navigation must respect UTF-8 boundaries"): step back once, then over
continuation bytes. -/
def text_char_prev (txt : List Char) : Nat → Nat
  | 0 => 0
  | q + 1 => if isContinuation txt q then text_char_prev txt q else q

/-- Modelled from the spec: `text_object_word_find_next` (text-objects.c,
not under src/) — "search forward past the selection end for the next
literal occurrence": the first position at or after `pos` where the
pattern's bytes occur in the text, returned as a range, or an invalid
range (`none`) if there is none. -/
def find_next (txt : List Char) (pos : Nat) (pat : List Char) :
    Option (Nat × Nat) :=
  (((List.range (txt.length + 1)).filter
      (fun i => decide (pos ≤ i ∧ (txt.drop i).take pat.length = pat))).head?).map
    (fun i => (i, i + pat.length))

/-- `cursors_select_next` (src/main.c:1131): if the primary cursor has a
valid selection, read its bytes and search forward from the selection end
for the next literal occurrence; on a match create a new cursor (which
becomes the primary — `view_cursors_new`, modelled from the spec) with
that range selected and its position on the range's last character.
No-op when the selection is invalid or nothing matches. -/
def cursors_select_next (txt : List Char) (v : CView) : CView :=
  match v.cursors.get? v.primary with
  | none => v
  | some cursor =>
    match cursor.sel with
    | none => v
    | some (s, e) =>
      let pat := (txt.drop s).take (e - s)
      match find_next txt e pat with
      | none => v
      | some (ws, we) =>
        let c : Cursor := { pos := text_char_prev txt we, sel := some (ws, we) }
        { cursors := v.cursors ++ [c], primary := v.cursors.length }

/-- Modelled from the spec: `view_cursors_dispose` (view.c, not under src/)
"removes all but keep at least one; removing the primary promotes the
next". -/
def view_cursors_dispose (v : CView) (i : Nat) : CView :=
  if v.cursors.length ≤ 1 then v
  else
    { cursors := v.cursors.eraseIdx i,
      primary :=
        if v.primary < i then v.primary
        else if i < v.primary then v.primary - 1
        else min i (v.cursors.length - 2) }

/-- `cursors_select_skip` (src/main.c:1158): remember the primary cursor,
run `cursors_select_next`, and dispose the remembered cursor only when the
primary changed (the C code compares cursor pointers; in this model
cursors never move inside the list, so pointer identity is index
identity). -/
def cursors_select_skip (txt : List Char) (v : CView) : CView :=
  let v' := cursors_select_next txt v
  if v'.primary ≠ v.primary then view_cursors_dispose v' v.primary else v'

/-- The composition the specification's words describe for
`cursor_select_skip`: "`cursor_select_next` then dispose the previous
primary", unconditionally. -/
def cursors_select_skip_spec (txt : List Char) (v : CView) : CView :=
  view_cursors_dispose (cursors_select_next txt v) v.primary

/-- Number of literal occurrences of `pat` in `txt`. -/
def occurrences (pat txt : List Char) : Nat :=
  ((List.range (txt.length + 1)).filter
    (fun i => decide ((txt.drop i).take pat.length = pat))).length

/-- Register file for the C1 counterexample: register `a` holds "xy". -/
def regsEx : Nat → Option (List Char) :=
  fun n => if n = 0 then some ['x', 'y'] else none

/-- View for the C1 counterexample: text "abcd" and two cursors, the
primary at byte 1, the other at byte 2. -/
def edEx1 : EdState :=
  { text := ['a', 'b', 'c', 'd'], cursors := [1, 2], primary := 0 }

/-- View for the C8 counterexample. -/
def edEx8 : EdState :=
  { text := ['a', 'b'], cursors := [1], primary := 0 }

/-- Prompt state for the C2 counterexample: the prompt was entered from
visual mode and its line buffer is empty. -/
def promptEx : PromptState :=
  { buffer := [], savedMode := Mode.visual, mode := Mode.prompt }

/-- View for the C7 counterexample: two cursors, neither with a valid
selection. -/
def viewEx7 : CView :=
  { cursors := [{ pos := 0, sel := none }, { pos := 1, sel := none }], primary := 0 }

/-- C5: for a digit key `d` routed to the `count` action with pending count
`c`, the new pending count is `10*c + d`; the line-begin motion is issued
exactly when `d = 0` and no count was pending, and in that case the count
stays 0 (unset). -/
theorem count_mult_acc (k : Char) (c d : Nat) (hd : d ≤ 9)
    (hk : k.toNat = '0'.toNat + d) :
    count k c = (10 * c + d, decide (d = 0 ∧ c = 0)) ∧
    (d = 0 → c = 0 → (count k c).1 = 0) := by
  have hmain : count k c = (10 * c + d, decide (d = 0 ∧ c = 0)) := by
    unfold count
    rw [hk]
    have hdigit : ((('0'.toNat + d : Nat)) : Int) - ('0'.toNat : Int) = (d : Int) := by
      push_cast; ring
    rw [hdigit]
    have hcond : (0 : Int) ≤ (d : Int) ∧ (d : Int) ≤ 9 := by
      constructor
      · exact_mod_cast Nat.zero_le d
      · exact_mod_cast hd
    rw [if_pos hcond]
    simp only [Prod.mk.injEq]
    constructor
    · simp only [Int.toNat_natCast]; ring
    · rw [decide_eq_decide]
      constructor
      · rintro ⟨h1, h2⟩; exact ⟨by exact_mod_cast h1, h2⟩
      · rintro ⟨h1, h2⟩; exact ⟨by exact_mod_cast h1, h2⟩
  refine ⟨hmain, ?_⟩
  intro hd0 hc0
  rw [hmain, hd0, hc0]

/-- Witness for C5: key `7` with pending count 5 gives count 57 and no
line-begin motion. -/
theorem count_mult_acc_witness :
    count '7' 5 = (57, false) :=
  (count_mult_acc '7' 5 7 (by decide) (by decide)).1

/-- C3 (counterexample): the keys `"`, `/`, `:`, `@` and `A` select no
register: `reg` passes `VIS_REGISTER_INVALID` to `vis_register_set` for
each of them, refuting both that the id set includes `"`, `/`, `:`, `@`
and that `A..Z` select append-mode registers. -/
theorem reg_other_ids_cex :
    (reg {} ['"']).1.register = none ∧
    (reg {} ['/']).1.register = none ∧
    (reg {} [':']).1.register = none ∧
    (reg {} ['@']).1.register = none ∧
    (reg {} ['A']).1.register = none := by
  decide

/-- C3 (amended): the `reg` action consumes exactly one key; a key in
`a`..`z` selects the corresponding register, and every other key —
including `"`, `/`, `:`, `@` and the uppercase letters — selects the
invalid register (no register, no append semantics). -/
theorem reg_lowercase_only (p : PendingCmd) (k : Char) (rest : Keys) :
    (('a' ≤ k ∧ k ≤ 'z') →
      reg p (k :: rest) =
        ({ p with register := some (k.toNat - 'a'.toNat) }, some rest)) ∧
    (¬ ('a' ≤ k ∧ k ≤ 'z') →
      reg p (k :: rest) = ({ p with register := none }, some rest)) := by
  constructor <;> intro h <;>
    simp [reg, key2register, vis_register_set, h]

/-- Witness for C3: key `b` selects register 1, key `"` the invalid one. -/
theorem reg_lowercase_only_witness :
    reg {} ['b'] = ({ register := some 1 }, some []) ∧
    reg {} ['"'] = ({ register := none }, some []) :=
  ⟨(reg_lowercase_only {} 'b' []).1 (by decide),
   (reg_lowercase_only {} '"' []).2 (by decide)⟩

/-- C8 (counterexample): undo at the history's end (`text_undo` returned
`EPOS`) leaves the view unchanged and does not redraw, but it surfaces no
message either, so the claim's conjunct "a short message is surfaced to
the UI" fails at this input. -/
theorem undo_no_history_cex :
    ¬ ((undo none edEx8).view = edEx8 ∧ (undo none edEx8).drew = false ∧
       (undo none edEx8).messages ≠ []) := by
  decide

/-- C8 (amended): when the text model's undo/redo returns the
invalid-position sentinel, the handlers recover locally — the view is
left entirely unchanged and nothing is redrawn — but no message is
surfaced: the failure is silent. -/
theorem undo_redo_no_history_silent (st : EdState) :
    undo none st = { view := st, drew := false, messages := [] } ∧
    redo none st = { view := st, drew := false, messages := [] } :=
  ⟨rfl, rfl⟩

/-- C9: on a successful undo/redo the primary cursor moves to the returned
position only when the view holds exactly one cursor; with two or more
cursors the view is returned untouched, every cursor keeping its
position. -/
theorem undo_redo_cursor_move (pos : Nat) (st : EdState) :
    (2 ≤ st.cursors.length →
      (undo (some pos) st).view = st ∧ (redo (some pos) st).view = st) ∧
    (st.cursors.length = 1 →
      (undo (some pos) st).view = view_cursor_to st pos ∧
      (redo (some pos) st).view = view_cursor_to st pos) := by
  constructor
  · intro h
    have h1 : ¬ st.cursors.length = 1 := by omega
    simp [undo, redo, h1]
  · intro h
    simp [undo, redo, h]

/-- Witness for C9: with the two-cursor view, a successful undo to
position 0 leaves the view unchanged. -/
theorem undo_redo_cursor_move_witness :
    (undo (some 0) edEx1).view = edEx1 :=
  ((undo_redo_cursor_move 0 edEx1).1 (by decide)).1

/-- C10 (counterexample): with pending count 1, "join-line-below"
decrements the count to 0 (unset), so the join operator runs exactly as
in the uncounted case and performs one join (two lines joined) — not
`1 - 1 = 0` joins as the claim's formula demands. -/
theorem join_count_one_cex :
    (join Motion.lineNext 1).1 = 0 ∧ joinOpsPerformed 1 = 1 ∧
    ¬ joinOpsPerformed 1 = 1 - 1 := by
  decide

/-- C10 (amended): "join-line-below" decrements a non-zero pending count
and then applies the join operator with the line-next motion; a count of
c ≥ 2 performs c − 1 join operations (joining c lines into one), while a
count of 1 — decremented to unset — performs a single join exactly like
the uncounted invocation; with no pending count the count stays unset. -/
theorem join_count_decrement (c : Nat) :
    join Motion.lineNext 0 = (0, Op.opJoin, Motion.lineNext) ∧
    (1 ≤ c → join Motion.lineNext c = (c - 1, Op.opJoin, Motion.lineNext)) ∧
    (2 ≤ c → joinOpsPerformed c = c - 1) ∧
    joinOpsPerformed 1 = 1 ∧ joinOpsPerformed 0 = 1 := by
  refine ⟨rfl, ?_, ?_, rfl, rfl⟩
  · intro h
    have h0 : c ≠ 0 := by omega
    simp [join, h0]
  · intro h
    have h0 : c ≠ 0 := by omega
    have h1 : ¬ c - 1 = 0 := by omega
    simp [joinOpsPerformed, join, motionReps, h0, h1]

/-- Witness for C10: a count of 3 becomes 2 and performs 2 joins. -/
theorem join_count_decrement_witness :
    join Motion.lineNext 3 = (2, Op.opJoin, Motion.lineNext) ∧
    joinOpsPerformed 3 = 2 :=
  ⟨(join_count_decrement 3).2.1 (by decide),
   (join_count_decrement 3).2.2.1 (by decide)⟩

/-- C2 (counterexample): the prompt was entered from visual mode; on an
empty buffer `prompt_backspace` switches to normal mode, not back to the
saved (visual) mode, refuting "restores the saved mode m (whatever m
was)". -/
theorem prompt_backspace_cex :
    (prompt_backspace promptEx []).1.mode = Mode.normal ∧
    (prompt_backspace promptEx []).1.mode ≠ promptEx.savedMode := by
  decide

/-- C2 (amended): on an empty line buffer `prompt_backspace` aborts the
prompt and switches to normal mode — coinciding with the saved mode only
when that mode was normal; on a non-empty buffer it deletes the previous
character and leaves the mode (prompt) unchanged. -/
theorem prompt_backspace_normal_mode (st : PromptState) (keys : Keys) :
    (st.buffer = [] →
      prompt_backspace st keys = ({ st with mode := Mode.normal }, keys)) ∧
    (st.buffer ≠ [] →
      prompt_backspace st keys =
        ({ st with buffer := st.buffer.dropLast }, keys)) := by
  constructor <;> intro h <;>
    simp [prompt_backspace, vis_mode_switch, prompt_delete_prev_char, h]

/-- Witness for C2: a one-character buffer loses its character and the
mode stays put. -/
theorem prompt_backspace_normal_mode_witness :
    prompt_backspace
      { buffer := ['a'], savedMode := Mode.visual, mode := Mode.prompt } [] =
    ({ buffer := [], savedMode := Mode.visual, mode := Mode.prompt }, []) :=
  (prompt_backspace_normal_mode
    { buffer := ['a'], savedMode := Mode.visual, mode := Mode.prompt } []).2
    (by decide)

/-- C1 (counterexample): with two cursors (bytes 1 and 2 of "abcd") and
register `a` holding "xy", `insert-register a` inserts the bytes once, at
the primary cursor only: the result "axybcd" holds a single occurrence of
"xy", and the non-primary cursor has not moved — refuting insertion at
every cursor with every cursor ending just past the bytes. -/
theorem insert_register_cex :
    (insert_register regsEx edEx1 ['a']).1.text = ['a', 'x', 'y', 'b', 'c', 'd'] ∧
    occurrences ['x', 'y'] (insert_register regsEx edEx1 ['a']).1.text = 1 ∧
    (insert_register regsEx edEx1 ['a']).1.cursors = [3, 2] := by
  decide

/-- C1 (amended): `insert_register` consumes exactly one key naming a
register; when that register is set it inserts the register's bytes once,
at the primary cursor's position, and moves the primary cursor just past
the inserted bytes, while every other cursor keeps its position. -/
theorem insert_register_primary_only (regs : Nat → Option (List Char))
    (st : EdState) (k : Char) (rest : Keys) (data : List Char)
    (hk : 'a' ≤ k ∧ k ≤ 'z') (hreg : regs (k.toNat - 'a'.toNat) = some data) :
    insert_register regs st (k :: rest) = (insertAtCursor st data, some rest) ∧
    (insertAtCursor st data).text =
      st.text.take (view_cursor_get st) ++ data ++
        st.text.drop (view_cursor_get st) ∧
    (insertAtCursor st data).cursors =
      st.cursors.set st.primary (view_cursor_get st + data.length) := by
  refine ⟨?_, rfl, rfl⟩
  have hreg' : regs (k.toNat - 97) = some data := hreg
  simp [insert_register, key2register, vis_register_get, hk, hreg']

/-- Witness for C1: inserting register `a` of the counterexample register
file consumes only the `a` key. -/
theorem insert_register_primary_only_witness :
    insert_register regsEx edEx1 ['a', 'Z'] =
      (insertAtCursor edEx1 ['x', 'y'], some ['Z']) :=
  (insert_register_primary_only regsEx edEx1 'a' ['Z'] ['x', 'y']
    (by decide) (by decide)).1

/-- On a run of valid digits of exactly the required length, the digit
loop of `insert_verbatim` consumes them all and accumulates their
base-`base` value. -/
theorem verbatimLoop_eq_of_valid (base : Nat) (ds : Keys) (rest : Keys)
    (rune : Nat) (h : ∀ c ∈ ds, (digitVal base c).isSome) :
    verbatimLoop base ds.length rune (ds ++ rest) =
      (0, accDigits base rune ds, rest) := by
  induction ds generalizing rune with
  | nil =>
    cases rest with
    | nil => rfl
    | cons r rs => simp [verbatimLoop, accDigits]
  | cons d ds ih =>
    have hd : (digitVal base d).isSome := h d (by simp)
    obtain ⟨v, hv⟩ := Option.isSome_iff_exists.mp hd
    simp only [List.length_cons, List.cons_append, verbatimLoop,
      Nat.succ_ne_zero, if_false, hv, Nat.succ_sub_one]
    have hacc : accDigits base rune (d :: ds) =
        accDigits base (rune * base + v) ds := by
      simp [accDigits, hv]
    rw [hacc]
    exact ih (rune * base + v) (fun c hc => h c (List.mem_cons_of_mem d hc))

/-- With fewer valid digits buffered than required, the digit loop runs
out of input with a positive required count left over. -/
theorem verbatimLoop_short (base : Nat) (ds : Keys) (cnt rune : Nat)
    (h : ∀ c ∈ ds, (digitVal base c).isSome) (hlt : ds.length < cnt) :
    0 < (verbatimLoop base cnt rune ds).1 := by
  induction ds generalizing cnt rune with
  | nil => simpa [verbatimLoop] using hlt
  | cons d ds ih =>
    have hd : (digitVal base d).isSome := h d (by simp)
    obtain ⟨v, hv⟩ := Option.isSome_iff_exists.mp hd
    have hcnt : ¬ cnt = 0 := by
      simp at hlt; omega
    simp only [verbatimLoop, hcnt, if_false, hv]
    refine ih (cnt - 1) (rune * base + v)
      (fun c hc => h c (List.mem_cons_of_mem d hc)) ?_
    simp at hlt; omega

/-- The UTF-8 encoding of a rune is never empty. -/
theorem runetochar_length_pos (r : Nat) : 0 < (runetochar r).length := by
  unfold runetochar
  repeat' split
  all_goals simp

/-- On a full run of valid digits, `verbatimTail` consumes exactly those
digits and inserts the encoded accumulated value. -/
theorem verbatimTail_complete (st : EdState) (isRune : Bool) (base rune0 : Nat)
    (ds rest : Keys) (hval : ∀ c ∈ ds, (digitVal base c).isSome) :
    verbatimTail st isRune ds.length base rune0 (ds ++ rest) =
      some (insertAtCursor st
        (if isRune then runetochar (accDigits base rune0 ds)
         else [Char.ofNat (accDigits base rune0 ds % 256)]), rest) := by
  unfold verbatimTail
  rw [verbatimLoop_eq_of_valid base ds rest rune0 hval]
  cases isRune with
  | false => simp
  | true => simp [runetochar_length_pos]

/-- With fewer valid digits buffered than required, `verbatimTail` returns
`NULL`. -/
theorem verbatimTail_short (st : EdState) (isRune : Bool) (base rune0 cnt : Nat)
    (ds : Keys) (hval : ∀ c ∈ ds, (digitVal base c).isSome)
    (hlt : ds.length < cnt) :
    verbatimTail st isRune cnt base rune0 ds = none := by
  unfold verbatimTail
  rw [if_pos (verbatimLoop_short base ds cnt rune0 hval hlt)]

/-- C6: `insert_verbatim` consumes exactly the advertised number of digits
in the advertised base for each prefix — `o`/`O`: 3 octal, `x`/`X`: 2
hex, `u`: 4 hex, `U`: 8 hex, a leading decimal digit: 2 more decimal
digits (three in total, the prefix digit included) — and the accumulated
value is inserted as a single UTF-8-encoded rune for `u`/`U` and as a
single raw byte for every other prefix. -/
theorem insert_verbatim_bases (st : EdState) (ds rest : Keys) :
    ((∀ c ∈ ds, (digitVal 8 c).isSome) → ds.length = 3 →
      insert_verbatim st ('o' :: (ds ++ rest)) =
        some (insertAtCursor st [Char.ofNat (accDigits 8 0 ds % 256)], rest) ∧
      insert_verbatim st ('O' :: (ds ++ rest)) =
        some (insertAtCursor st [Char.ofNat (accDigits 8 0 ds % 256)], rest)) ∧
    ((∀ c ∈ ds, (digitVal 16 c).isSome) → ds.length = 2 →
      insert_verbatim st ('x' :: (ds ++ rest)) =
        some (insertAtCursor st [Char.ofNat (accDigits 16 0 ds % 256)], rest) ∧
      insert_verbatim st ('X' :: (ds ++ rest)) =
        some (insertAtCursor st [Char.ofNat (accDigits 16 0 ds % 256)], rest)) ∧
    ((∀ c ∈ ds, (digitVal 16 c).isSome) → ds.length = 4 →
      insert_verbatim st ('u' :: (ds ++ rest)) =
        some (insertAtCursor st (runetochar (accDigits 16 0 ds)), rest)) ∧
    ((∀ c ∈ ds, (digitVal 16 c).isSome) → ds.length = 8 →
      insert_verbatim st ('U' :: (ds ++ rest)) =
        some (insertAtCursor st (runetochar (accDigits 16 0 ds)), rest)) ∧
    (∀ d0 : Char, '0' ≤ d0 → d0 ≤ '9' →
      (∀ c ∈ ds, (digitVal 10 c).isSome) → ds.length = 2 →
      insert_verbatim st (d0 :: (ds ++ rest)) =
        some (insertAtCursor st
          [Char.ofNat (accDigits 10 (d0.toNat - '0'.toNat) ds % 256)],
          rest)) := by
  refine ⟨?_, ?_, ?_, ?_, ?_⟩
  · intro hval hlen
    constructor
    · rw [show insert_verbatim st ('o' :: (ds ++ rest)) =
            verbatimTail st false 3 8 0 (ds ++ rest) from rfl, ← hlen,
          verbatimTail_complete st false 8 0 ds rest hval]
      simp
    · rw [show insert_verbatim st ('O' :: (ds ++ rest)) =
            verbatimTail st false 3 8 0 (ds ++ rest) from rfl, ← hlen,
          verbatimTail_complete st false 8 0 ds rest hval]
      simp
  · intro hval hlen
    constructor
    · rw [show insert_verbatim st ('x' :: (ds ++ rest)) =
            verbatimTail st false 2 16 0 (ds ++ rest) from rfl, ← hlen,
          verbatimTail_complete st false 16 0 ds rest hval]
      simp
    · rw [show insert_verbatim st ('X' :: (ds ++ rest)) =
            verbatimTail st false 2 16 0 (ds ++ rest) from rfl, ← hlen,
          verbatimTail_complete st false 16 0 ds rest hval]
      simp
  · intro hval hlen
    rw [show insert_verbatim st ('u' :: (ds ++ rest)) =
          verbatimTail st true 4 16 0 (ds ++ rest) from rfl, ← hlen,
        verbatimTail_complete st true 16 0 ds rest hval]
    simp
  · intro hval hlen
    rw [show insert_verbatim st ('U' :: (ds ++ rest)) =
          verbatimTail st true 8 16 0 (ds ++ rest) from rfl, ← hlen,
        verbatimTail_complete st true 16 0 ds rest hval]
    simp
  · intro d0 hlo hhi hval hlen
    have h1 : ¬ (d0 = 'o' ∨ d0 = 'O') := by
      rintro (rfl | rfl) <;> exact absurd hhi (by decide)
    have h2 : ¬ d0 = 'U' := by rintro rfl; exact absurd hhi (by decide)
    have h3 : ¬ d0 = 'u' := by rintro rfl; exact absurd hhi (by decide)
    have h4 : ¬ (d0 = 'x' ∨ d0 = 'X') := by
      rintro (rfl | rfl) <;> exact absurd hhi (by decide)
    simp only [insert_verbatim]
    rw [if_neg h1, if_neg h2, if_neg h3, if_neg h4, if_pos ⟨hlo, hhi⟩,
      ← hlen, verbatimTail_complete st false 10 (d0.toNat - '0'.toNat) ds rest hval]
    simp

/-- Witness for C6: `u 0 0 4 1` inserts the single character U+0041. -/
theorem insert_verbatim_bases_witness :
    insert_verbatim { text := [], cursors := [0], primary := 0 }
        ['u', '0', '0', '4', '1'] =
      some ({ text := ['A'], cursors := [1], primary := 0 }, []) := by
  have h := (insert_verbatim_bases { text := [], cursors := [0], primary := 0 }
    ['0', '0', '4', '1'] []).2.2.1 (by decide) rfl
  exact h.trans (by decide)

/-- C4 (counterexample): with a macro recording in progress and an empty
key tail, `macro_record` does not return `NULL`: it stops the recording
and returns the (empty) tail, refuting "whenever the already-buffered key
tail is empty the handler returns nil" for `macro_record`. -/
theorem macro_record_nonnil_cex :
    (macro_record true []).2 = some [] ∧ (macro_record true []).2 ≠ none := by
  decide

/-- C4 (amended): every key-consuming handler returns `NULL` on an empty
buffered tail (and `insert_verbatim` also when fewer digits than required
are buffered), so the dispatcher buffers the command and awaits more
input — except `macro_record` invoked while a recording is in progress,
which needs no key: it stops the recording, consumes nothing, and returns
the tail unchanged.  None of the handlers blocks: each is a total
function of the buffered tail. -/
theorem keyconsume_need_more_input (motionKind : Nat) (p : PendingCmd)
    (pos : Nat) (regs : Nat → Option (List Char)) (st : EdState) :
    replace [] = none ∧
    movement_key motionKind [] = none ∧
    (reg p []).2 = none ∧
    (mark_set pos []).2 = none ∧
    (insert_register regs st []).2 = none ∧
    insert_verbatim st [] = none ∧
    (∀ ds : Keys, (∀ c ∈ ds, (digitVal 8 c).isSome) → ds.length < 3 →
      insert_verbatim st ('o' :: ds) = none ∧
      insert_verbatim st ('O' :: ds) = none) ∧
    (∀ ds : Keys, (∀ c ∈ ds, (digitVal 16 c).isSome) → ds.length < 2 →
      insert_verbatim st ('x' :: ds) = none ∧
      insert_verbatim st ('X' :: ds) = none) ∧
    (∀ ds : Keys, (∀ c ∈ ds, (digitVal 16 c).isSome) → ds.length < 4 →
      insert_verbatim st ('u' :: ds) = none) ∧
    (∀ ds : Keys, (∀ c ∈ ds, (digitVal 16 c).isSome) → ds.length < 8 →
      insert_verbatim st ('U' :: ds) = none) ∧
    (∀ d0 : Char, ∀ ds : Keys, '0' ≤ d0 → d0 ≤ '9' →
      (∀ c ∈ ds, (digitVal 10 c).isSome) → ds.length < 2 →
      insert_verbatim st (d0 :: ds) = none) ∧
    (macro_record false []).2 = none ∧
    (macro_replay []).2 = none ∧
    (∀ keys : Keys, (macro_record true keys).2 = some keys) := by
  refine ⟨rfl, rfl, rfl, rfl, rfl, rfl, ?_, ?_, ?_, ?_, ?_, rfl, rfl,
    fun keys => rfl⟩
  · intro ds hval hlen
    constructor
    · rw [show insert_verbatim st ('o' :: ds) = verbatimTail st false 3 8 0 ds
          from rfl]
      exact verbatimTail_short st false 8 0 3 ds hval hlen
    · rw [show insert_verbatim st ('O' :: ds) = verbatimTail st false 3 8 0 ds
          from rfl]
      exact verbatimTail_short st false 8 0 3 ds hval hlen
  · intro ds hval hlen
    constructor
    · rw [show insert_verbatim st ('x' :: ds) = verbatimTail st false 2 16 0 ds
          from rfl]
      exact verbatimTail_short st false 16 0 2 ds hval hlen
    · rw [show insert_verbatim st ('X' :: ds) = verbatimTail st false 2 16 0 ds
          from rfl]
      exact verbatimTail_short st false 16 0 2 ds hval hlen
  · intro ds hval hlen
    rw [show insert_verbatim st ('u' :: ds) = verbatimTail st true 4 16 0 ds
        from rfl]
    exact verbatimTail_short st true 16 0 4 ds hval hlen
  · intro ds hval hlen
    rw [show insert_verbatim st ('U' :: ds) = verbatimTail st true 8 16 0 ds
        from rfl]
    exact verbatimTail_short st true 16 0 8 ds hval hlen
  · intro d0 ds hlo hhi hval hlen
    have h1 : ¬ (d0 = 'o' ∨ d0 = 'O') := by
      rintro (rfl | rfl) <;> exact absurd hhi (by decide)
    have h2 : ¬ d0 = 'U' := by rintro rfl; exact absurd hhi (by decide)
    have h3 : ¬ d0 = 'u' := by rintro rfl; exact absurd hhi (by decide)
    have h4 : ¬ (d0 = 'x' ∨ d0 = 'X') := by
      rintro (rfl | rfl) <;> exact absurd hhi (by decide)
    simp only [insert_verbatim]
    rw [if_neg h1, if_neg h2, if_neg h3, if_neg h4, if_pos ⟨hlo, hhi⟩]
    exact verbatimTail_short st false 10 (d0.toNat - '0'.toNat) 2 ds hval hlen

/-- Witness for C4: two buffered octal digits are not enough for `o`. -/
theorem keyconsume_need_more_input_witness :
    insert_verbatim edEx8 ['o', '1', '2'] = none ∧
    insert_verbatim edEx8 ['x', 'f'] = none ∧
    insert_verbatim edEx8 ['U', '0', '0', '1', 'f', '4', 'a', '0'] = none ∧
    insert_verbatim edEx8 ['4', '2'] = none :=
  ⟨((keyconsume_need_more_input 0 {} 0 regsEx edEx8).2.2.2.2.2.2.1
      ['1', '2'] (by decide) (by decide)).1,
   ((keyconsume_need_more_input 0 {} 0 regsEx edEx8).2.2.2.2.2.2.2.1
      ['f'] (by decide) (by decide)).1,
   (keyconsume_need_more_input 0 {} 0 regsEx edEx8).2.2.2.2.2.2.2.2.2.1
      ['0', '0', '1', 'f', '4', 'a', '0'] (by decide) (by decide),
   (keyconsume_need_more_input 0 {} 0 regsEx edEx8).2.2.2.2.2.2.2.2.2.2.1
      '4' ['2'] (by decide) (by decide) (by decide) (by decide)⟩

/-- C7 (counterexample): with two selection-less cursors,
`cursors_select_next` is a no-op and `cursors_select_skip` therefore
disposes nothing, while the claimed unconditional composition "select
next, then dispose the previous primary" drops a cursor: the two sides
differ, refuting the unconditional equation. -/
theorem select_skip_cex :
    cursors_select_next ['a', 'b'] viewEx7 = viewEx7 ∧
    cursors_select_skip ['a', 'b'] viewEx7 = viewEx7 ∧
    cursors_select_skip_spec ['a', 'b'] viewEx7 ≠
      cursors_select_skip ['a', 'b'] viewEx7 := by
  decide

/-- C7 (amended): `cursors_select_next` is a no-op whenever the primary
cursor has no valid selection or no further literal occurrence of the
selection's bytes exists at or past the selection end, and then
`cursors_select_skip` is a no-op too; when a match exists,
`cursors_select_next` adds one cursor selecting the match (which becomes
the primary) and `cursors_select_skip` equals `cursors_select_next`
followed by disposing the previous primary. -/
theorem select_skip_next_dispose (txt : List Char) (v : CView) (cur : Cursor)
    (hcur : v.cursors.get? v.primary = some cur) :
    (cur.sel = none →
      cursors_select_next txt v = v ∧ cursors_select_skip txt v = v) ∧
    (∀ s e, cur.sel = some (s, e) →
      (find_next txt e ((txt.drop s).take (e - s)) = none →
        cursors_select_next txt v = v ∧ cursors_select_skip txt v = v) ∧
      (∀ ws we, find_next txt e ((txt.drop s).take (e - s)) = some (ws, we) →
        cursors_select_next txt v =
          { cursors := v.cursors ++
              [{ pos := text_char_prev txt we, sel := some (ws, we) }],
            primary := v.cursors.length } ∧
        cursors_select_skip txt v = cursors_select_skip_spec txt v)) := by
  have hlt : v.primary < v.cursors.length := by
    by_contra hge
    rw [List.get?_eq_none.mpr (Nat.le_of_not_lt hge)] at hcur
    exact Option.noConfusion hcur
  constructor
  · intro hsel
    have hnext : cursors_select_next txt v = v := by
      simp only [cursors_select_next, hcur, hsel]
    refine ⟨hnext, ?_⟩
    unfold cursors_select_skip
    rw [hnext]
    simp
  · intro s e hsel
    constructor
    · intro hfind
      have hnext : cursors_select_next txt v = v := by
        simp only [cursors_select_next, hcur, hsel, hfind]
      refine ⟨hnext, ?_⟩
      unfold cursors_select_skip
      rw [hnext]
      simp
    · intro ws we hfind
      have hnext : cursors_select_next txt v =
          { cursors := v.cursors ++
              [{ pos := text_char_prev txt we, sel := some (ws, we) }],
            primary := v.cursors.length } := by
        simp only [cursors_select_next, hcur, hsel, hfind]
      refine ⟨hnext, ?_⟩
      have hne : v.cursors.length ≠ v.primary := by omega
      unfold cursors_select_skip cursors_select_skip_spec
      rw [hnext]
      simp [hne]

/-- Witness for C7: searching forward from the selection "ab" of "abab"
finds the second occurrence; the conditional skip and the specification's
unconditional composition agree on this success case. -/
theorem select_skip_next_dispose_witness :
    cursors_select_skip ['a', 'b', 'a', 'b']
        { cursors := [{ pos := 1, sel := some (0, 2) }], primary := 0 } =
      cursors_select_skip_spec ['a', 'b', 'a', 'b']
        { cursors := [{ pos := 1, sel := some (0, 2) }], primary := 0 } :=
  ((((select_skip_next_dispose ['a', 'b', 'a', 'b']
      { cursors := [{ pos := 1, sel := some (0, 2) }], primary := 0 }
      { pos := 1, sel := some (0, 2) } (by decide)).2 0 2 rfl).2) 2 4
      (by decide)).2

end Vis
